import Mathlib

/-!
Verification of the sanjaya-app workflow orchestration core.

This file gives a shallow embedding, translated from the Python sources
(`agents/orchestrator/orchestrator_agent.py`, `agents/governance/governance_agent.py`,
`agents/governance/prompts.py`), of:

* the diff parser (`_extract_changed_files` / `_extract_changed_files_from_diff`),
* the governance rule evaluator (`GovernanceAgent.evaluate`),
* the test / smoke step runners (`_run_tests`, `_run_smoke`),
* the workflow status resolver (`_compute_workflow_status`),
* the feature and bugfix workflow coordinators
  (`run_feature_workflow`, `run_bugfix_workflow`, post precondition validation),

together with theorems settling the spec's claims about them.  External
side effects (subprocess execution, LLM calls, git operations) are modelled
as oracle values supplied through an environment record — the embedding is
a pure function of the request flags, the project configuration and those
oracle outcomes, exactly mirroring the Python control flow.
-/

/-! ## Python string primitives used by the sources -/

/-- Python `str.lstrip(chars)`: drop leading characters while they belong to
the character *set* `set` (not a prefix removal). -/
def pyLstripSet (s : String) (set : List Char) : String :=
  String.mk (s.toList.dropWhile (fun c => set.contains c))

/-- Python `str.strip(chars)`: drop characters of the set from both ends. -/
def pyStripSet (s : String) (set : List Char) : String :=
  String.mk
    (((s.toList.dropWhile (fun c => set.contains c)).reverse.dropWhile
        (fun c => set.contains c)).reverse)

/-- The whitespace characters stripped by Python's no-argument `str.strip()`
(for the ASCII range relevant to diff lines). -/
def pyWhitespace : List Char := [' ', '\t', '\n', '\r', '\x0b', '\x0c']

/-- Python `str.strip()` with no argument. -/
def pyStrip (s : String) : String := pyStripSet s pyWhitespace

/-- Containment of one character list in another (`needle in hay`). -/
def charsContain (needle : List Char) : List Char → Bool
  | [] => needle.isEmpty
  | c :: cs => needle.isPrefixOf (c :: cs) || charsContain needle cs

/-- Python's `needle in hay` substring test. -/
def strContains (hay needle : String) : Bool :=
  charsContain needle.toList hay.toList

/-- Python `str.lower()` (ASCII case folding, which covers every string the
sources lower-case). -/
def pyLower (s : String) : String := String.mk (s.toList.map Char.toLower)

/-- Python `str.startswith`. -/
def pyStartsWith (s p : String) : Bool := p.toList.isPrefixOf s.toList

/-- Python `str.endswith`. -/
def pyEndsWith (s p : String) : Bool := p.toList.isSuffixOf s.toList

/-- Python `s[n:]` slicing from a character index. -/
def pyDrop (s : String) (n : Nat) : String := String.mk (s.toList.drop n)

/-- Fuel-driven worker for `pyReplace`: replaces non-overlapping occurrences
of `pat` left to right.  Each step consumes at least one character, so fuel
equal to the string's length is always sufficient. -/
def pyReplaceAux (pat repl : List Char) : Nat → List Char → List Char
  | 0, s => s
  | fuel + 1, s =>
    match s with
    | [] => []
    | c :: cs =>
      if !pat.isEmpty && pat.isPrefixOf (c :: cs) then
        repl ++ pyReplaceAux pat repl fuel ((c :: cs).drop pat.length)
      else c :: pyReplaceAux pat repl fuel cs

/-- Python `str.replace(pat, repl)` for a non-empty pattern. -/
def pyReplace (s pat repl : String) : String :=
  String.mk (pyReplaceAux pat.toList repl.toList s.toList.length s.toList)

/-- Fuel-driven worker for `pySplit` (fuel as in `pyReplaceAux`). -/
def pySplitAux (sep : List Char) : Nat → List Char → List Char → List (List Char)
  | 0, s, acc => [acc.reverse ++ s]
  | fuel + 1, s, acc =>
    match s with
    | [] => [acc.reverse]
    | c :: cs =>
      if !sep.isEmpty && sep.isPrefixOf (c :: cs) then
        acc.reverse :: pySplitAux sep fuel ((c :: cs).drop sep.length) []
      else pySplitAux sep fuel cs (c :: acc)

/-- Python `str.split(sep)` for a non-empty separator. -/
def pySplit (s sep : String) : List String :=
  (pySplitAux sep.toList s.toList.length s.toList []).map String.mk

/-! ## `fnmatch.fnmatch`

The governance rules match paths with Python's `fnmatch.fnmatch`.  For
patterns containing no `[...]` character class — the only kind appearing in
this repository's rule sets — `fnmatch` translates `*` to "any character
sequence" (including `/` and newlines) and `?` to "any single character",
other characters matching literally, anchored at both ends.  `fnmatchList`
is that semantics on character lists. -/

def fnmatchList : List Char → List Char → Bool
  | [], s => s.isEmpty
  | '*' :: ps, s => s.tails.any (fun t => fnmatchList ps t)
  | '?' :: _, [] => false
  | '?' :: ps, _ :: cs => fnmatchList ps cs
  | _ :: _, [] => false
  | p :: ps, c :: cs => (p = c) && fnmatchList ps cs

/-- `fnmatch.fnmatch(name, pattern)` for class-free patterns. -/
def fnmatch (name pattern : String) : Bool :=
  fnmatchList pattern.toList name.toList

/-! ## Diff parser

`GovernanceAgent._extract_changed_files` and
`OrchestratorAgent._extract_changed_files_from_diff` are textually identical:

```python
files = []
for line in diff.split("\n"):
    if line.startswith("---") or line.startswith("+++"):
        file_path = line.replace("---", "").replace("+++", "").strip()
        file_path = file_path.lstrip("a/").lstrip("b/")
        if file_path and file_path != "/dev/null" and file_path not in files:
            files.append(file_path)
return files
```

Note that `lstrip("a/")`/`lstrip("b/")` strip *character sets*, not string
prefixes; the embedding reproduces that behaviour exactly. -/

/-- One iteration of the loop body of `_extract_changed_files`. -/
def extractChangedFilesStep (files : List String) (line : String) : List String :=
  if pyStartsWith line "---" || pyStartsWith line "+++" then
    let fp := pyStrip (pyReplace (pyReplace line "---" "") "+++" "")
    let fp := pyLstripSet (pyLstripSet fp ['a', '/']) ['b', '/']
    if fp ≠ "" && fp ≠ "/dev/null" && !(files.contains fp) then
      files ++ [fp]
    else files
  else files

/-- `GovernanceAgent._extract_changed_files` (also
`OrchestratorAgent._extract_changed_files_from_diff`). -/
def extract_changed_files (diff : String) : List String :=
  (pySplit diff "\n").foldl extractChangedFilesStep []

/-! ## Governance data model (`governance_agent.py`, `prompts.py`) -/

/-- `GovernanceRuleViolation` dataclass. -/
structure GovernanceRuleViolation where
  rule_name : String
  severity : String
  message : String
  file_path : Option String := none
deriving DecidableEq, Repr

/-- `GovernanceResult` dataclass. -/
structure GovernanceResult where
  ok : Bool
  violations : List GovernanceRuleViolation
  summary : String := ""
deriving DecidableEq, Repr

/-- The `governance` section of a project configuration, as read by
`GovernanceAgent.evaluate` via `.get` with these defaults:
`forbidden_paths` (absent means `FORBIDDEN_PATHS_DEFAULT`),
`require_tests_for_code` (default `True`), `allowed_dependencies`
(default `{}`, modelled as an association list from language to
allow-list). -/
structure GovernanceConfig where
  forbidden_paths : Option (List String) := none
  require_tests_for_code : Bool := true
  allowed_dependencies : List (String × List String) := []
deriving DecidableEq, Repr

/-- One entry of the `runtime` mapping (`install_command` / `smoke_command`
keys read by `_run_smoke`); `none` models an absent or falsy value. -/
structure RuntimeTarget where
  install_command : Option String := none
  smoke_command : Option String := none
deriving DecidableEq, Repr

/-- The `runtime` mapping of a project configuration, as read by
`_run_smoke`; `none` models an absent or falsy (empty-dict) entry. -/
structure RuntimeConfig where
  backend_fastapi : Option RuntimeTarget := none
  backend_php : Option RuntimeTarget := none
  backend : Option RuntimeTarget := none
  frontend_next : Option RuntimeTarget := none
deriving DecidableEq, Repr

/-- The project configuration mapping, restricted to the keys the
orchestrator and governance agent read: `language` (default `"python"`),
`test_command`, `governance`, `runtime`. -/
structure ProjectConfig where
  language : String := "python"
  test_command : Option String := none
  governance : GovernanceConfig := {}
  runtime : RuntimeConfig := {}
deriving DecidableEq, Repr

/-- `FORBIDDEN_PATHS_DEFAULT` from `agents/governance/prompts.py`. -/
def FORBIDDEN_PATHS_DEFAULT : List String :=
  ["**/.env", "**/.env.*", "**/secrets/**", "**/credentials/**",
   "**/*.key", "**/*.pem", "**/*.p12"]

/-- `REQUIRE_TESTS_FOR_CODE_PATTERNS` dict from `prompts.py`, as a function
(`.get(language, [])`). -/
def REQUIRE_TESTS_FOR_CODE_PATTERNS (language : String) : List String :=
  if language = "python" then ["**/*.py"]
  else if language = "javascript" then ["**/*.js", "**/*.ts", "**/*.jsx", "**/*.tsx"]
  else if language = "php" then ["**/*.php"]
  else []

/-- The `test_patterns` dict inside `GovernanceAgent._is_test_file`. -/
def TEST_FILE_PATTERNS (language : String) : List String :=
  if language = "python" then ["**/test_*.py", "**/*_test.py", "**/tests/**/*.py"]
  else if language = "javascript" then
    ["**/*.test.js", "**/*.test.ts", "**/*.spec.js", "**/*.spec.ts", "**/__tests__/**"]
  else if language = "php" then ["**/*Test.php", "**/tests/**/*.php"]
  else []

/-- The `dep_manifest_files` dict inside `GovernanceAgent.evaluate`. -/
def DEP_MANIFEST_FILES (language : String) : List String :=
  if language = "python" then ["requirements.txt", "pyproject.toml", "setup.py"]
  else if language = "javascript" then ["package.json"]
  else if language = "php" then ["composer.json"]
  else []

/-- `GovernanceAgent._matches_patterns`: true when the path matches any of
the glob patterns. -/
def matches_patterns (file_path : String) (patterns : List String) : Bool :=
  patterns.any (fun pattern => fnmatch file_path pattern)

/-- `GovernanceAgent._is_test_file`. -/
def is_test_file (file_path language : String) : Bool :=
  matches_patterns file_path (TEST_FILE_PATTERNS (pyLower language))

/-- The per-line dependency-name heuristic inside
`GovernanceAgent._extract_added_dependencies`, applied to one stripped added
line; returns the extracted names (zero or one). -/
def depOfLine (language dep_line : String) : List String :=
  if language = "python" then
    if strContains dep_line "==" || strContains dep_line ">=" || strContains dep_line ">" then
      let s1 := (pySplit dep_line "==").headD ""
      let s2 := (pySplit s1 ">=").headD ""
      let dep := pyStrip ((pySplit s2 ">").headD "")
      if dep ≠ "" && !(pyStartsWith dep "#") then [dep] else []
    else []
  else if language = "javascript" || language = "php" then
    if strContains dep_line "\"" && strContains dep_line ":" then
      let dep := pyStripSet (pyStripSet (pyStrip ((pySplit dep_line ":").headD "")) ['"']) ['\x27']
      if dep ≠ "" && !(pyStartsWith dep "//") then [dep] else []
    else []
  else []

/-- The scanning loop of `GovernanceAgent._extract_added_dependencies`, with
its `in_file` / `in_added_section` state; an old-file/new-file header seen
while inside the target file's section terminates the scan (`break`). -/
def extractAddedDepsGo (file_path language : String) :
    Bool → Bool → List String → List String
  | _, _, [] => []
  | inFile, inAdded, line :: rest =>
    if pyStartsWith line "+++" && strContains line file_path then
      extractAddedDepsGo file_path language true inAdded rest
    else if inFile then
      if pyStartsWith line "@@" then
        extractAddedDepsGo file_path language inFile true rest
      else if pyStartsWith line "---" || pyStartsWith line "+++" then []
      else if inAdded && pyStartsWith line "+" then
        depOfLine language (pyStrip (pyDrop line 1)) ++
          extractAddedDepsGo file_path language inFile inAdded rest
      else extractAddedDepsGo file_path language inFile inAdded rest
    else extractAddedDepsGo file_path language inFile inAdded rest

/-- `GovernanceAgent._extract_added_dependencies`. -/
def extract_added_dependencies (diff file_path language : String) : List String :=
  extractAddedDepsGo file_path language false false (pySplit diff "\n")

/-- The violation record appended by the forbidden-path rule. -/
def mkForbiddenViolation (file_path : String) : GovernanceRuleViolation :=
  { rule_name := "forbidden_paths", severity := "error",
    message := "File \x27" ++ file_path ++ "\x27 matches forbidden path pattern",
    file_path := some file_path }

/-- Rule 1 of `GovernanceAgent.evaluate`: one error violation per changed
file matching a forbidden pattern, in changed-file order. -/
def forbiddenRuleViolations (changed_files forbidden_paths : List String) :
    List GovernanceRuleViolation :=
  (changed_files.filter (fun fp => matches_patterns fp forbidden_paths)).map
    mkForbiddenViolation

/-- Rule 2 of `GovernanceAgent.evaluate`: the require-tests-for-code warning. -/
def requireTestsViolations (changed_files : List String) (language : String) :
    List GovernanceRuleViolation :=
  let code_patterns := REQUIRE_TESTS_FOR_CODE_PATTERNS language
  let code_files := changed_files.filter (fun f => matches_patterns f code_patterns)
  let test_files := changed_files.filter (fun f => is_test_file f language)
  if !code_files.isEmpty && test_files.isEmpty then
    [{ rule_name := "require_tests_for_code", severity := "warning",
       message := "Code changes detected in " ++ toString code_files.length ++
         " file(s) but no test files found",
       file_path := none }]
  else []

/-- Rule 3 of `GovernanceAgent.evaluate`: allowed-dependency checking over
manifest files. -/
def allowedDepsViolations (diff : String) (changed_files : List String)
    (deps_list : List String) (language : String) : List GovernanceRuleViolation :=
  let dep_manifest_files := DEP_MANIFEST_FILES language
  changed_files.flatMap (fun file_path =>
    if dep_manifest_files.any (fun manifest => pyEndsWith file_path manifest) then
      (extract_added_dependencies diff file_path language).filterMap (fun dep =>
        if !(matches_patterns dep deps_list) then
          some { rule_name := "allowed_dependencies", severity := "error",
                 message := "Dependency \x27" ++ dep ++ "\x27 is not in allowed list",
                 file_path := some file_path }
        else none)
    else [])

/-- The final verdict assembly of `GovernanceAgent.evaluate` (lines 111-118):
`ok` iff zero error-severity violations, plus the summary string. -/
def governanceVerdict (violations : List GovernanceRuleViolation) : GovernanceResult :=
  let errors := (violations.filter (fun v => v.severity == "error")).length
  let warnings := (violations.filter (fun v => v.severity == "warning")).length
  { ok := decide (errors = 0),
    violations := violations,
    summary := "Found " ++ toString violations.length ++ " violation(s): " ++
      toString errors ++ " error(s), " ++ toString warnings ++ " warning(s)" }

/-- `GovernanceAgent.evaluate`. -/
def evaluate (diff : String) (project_config : ProjectConfig) : GovernanceResult :=
  let governance_config := project_config.governance
  let changed_files := extract_changed_files diff
  let forbidden_paths := governance_config.forbidden_paths.getD FORBIDDEN_PATHS_DEFAULT
  let language := pyLower project_config.language
  let rule1 := forbiddenRuleViolations changed_files forbidden_paths
  let rule2 :=
    if governance_config.require_tests_for_code then
      requireTestsViolations changed_files language
    else []
  let rule3 :=
    if !governance_config.allowed_dependencies.isEmpty then
      let deps_list :=
        ((governance_config.allowed_dependencies.find? (fun p => p.1 = language)).map
          Prod.snd).getD []
      if !deps_list.isEmpty then
        allowedDepsViolations diff changed_files deps_list language
      else []
    else []
  governanceVerdict (rule1 ++ rule2 ++ rule3)

/-! ## Step runners (`orchestrator_agent.py`)

Side-effecting calls (`subprocess.run`, the LLM-backed agents, git
operations) are modelled as oracle outcomes supplied by the caller; the
runners' classification logic is translated from the source. -/

/-- Outcome of one `subprocess.run` invocation, as an oracle value: the
call either times out (`subprocess.TimeoutExpired`), raises some other
exception, or finishes with an exit code and captured output. -/
inductive ExecOutcome
  | timedOut (msg : String)
  | raised (msg : String)
  | finished (returncode : Int) (stdout stderr : String)
deriving DecidableEq, Repr

/-- The dict returned by `OrchestratorAgent._run_tests`: either the skipped
marker, a completed run (status `"passed"`/`"failed"` plus exit code,
output and command), or the caught-exception form (status `"error"`). -/
inductive TestResult
  | skipped (reason : String)
  | completed (status : String) (returncode : Int) (stdout stderr command : String)
  | error (msg command : String)
deriving DecidableEq, Repr

/-- The `"status"` entry of a `_run_tests` result dict. -/
def TestResult.status : TestResult → String
  | .skipped _ => "skipped"
  | .completed s _ _ _ _ => s
  | .error _ _ => "error"

/-- `OrchestratorAgent._run_tests`.  Deriving the command from the config
is pure; the actual `subprocess.run` call is the oracle `exec`.  A
`TimeoutExpired` is caught by the same `except Exception` as any other
exception, so both map to the `"error"` form. -/
def run_tests (project_config : ProjectConfig) (exec : ExecOutcome) : TestResult :=
  let language := pyLower project_config.language
  let configured := project_config.test_command.getD ""
  let test_cmd : Option String :=
    if configured ≠ "" then some configured
    else if language = "python" then some "pytest"
    else if language = "js" || language = "javascript" || language = "node" then
      some "npm test"
    else if language = "php" then some "phpunit"
    else none
  match test_cmd with
  | none => .skipped "No test_command configured"
  | some cmd =>
    match exec with
    | .finished rc out err =>
      .completed (if rc = 0 then "passed" else "failed") rc out err cmd
    | .timedOut m => .error m cmd
    | .raised m => .error m cmd

/-- The per-subprocess record stored under `"install"` / `"smoke"` in a
`_run_smoke` result. -/
structure SubprocRecord where
  command : String
  returncode : Int
  stdout : String
  stderr : String
deriving DecidableEq, Repr

/-- The dict returned by `OrchestratorAgent._run_smoke`. -/
structure SmokeResult where
  status : String
  install : Option SubprocRecord := none
  smoke : Option SubprocRecord := none
  error : Option String := none
  reason : Option String := none
deriving DecidableEq, Repr

/-- The smoke-target selection at the top of `_run_smoke`: backend runtimes
preferred (`backend_fastapi`, then `backend_php`, then `backend`), falling
back to `frontend_next`. -/
def smokeTargetOf (runtime : RuntimeConfig) : Option RuntimeTarget :=
  let backend_runtime :=
    (runtime.backend_fastapi.orElse (fun _ => runtime.backend_php)).orElse
      (fun _ => runtime.backend)
  let frontend_runtime := runtime.frontend_next
  match backend_runtime with
  | some t => some t
  | none => frontend_runtime

/-- `OrchestratorAgent._run_smoke`.  `exec cmd t` is the oracle for
`subprocess.run(cmd, ..., timeout=t)`; as in the source, the full
caller-supplied `timeout` is passed to the install call and to the smoke
call separately.  A `TimeoutExpired` from either call yields the fresh
`{"status": "timeout"}` dict (discarding any recorded install result),
any other exception the `{"status": "error"}` dict. -/
def run_smoke (project_config : ProjectConfig) (timeout : Nat)
    (exec : String → Nat → ExecOutcome) : SmokeResult :=
  match smokeTargetOf project_config.runtime with
  | none => { status := "skipped", reason := some "No runtime.*.smoke_command configured" }
  | some t =>
    let install_cmd := t.install_command.getD ""
    let smoke_cmd := t.smoke_command.getD ""
    if smoke_cmd = "" then
      { status := "skipped", reason := some "smoke_command not configured" }
    else
      let installStep : Except SmokeResult (Option SubprocRecord) :=
        if install_cmd ≠ "" then
          match exec install_cmd timeout with
          | .timedOut m => .error { status := "timeout", error := some m }
          | .raised m => .error { status := "error", error := some m }
          | .finished rc out err =>
            let ir : SubprocRecord :=
              { command := install_cmd, returncode := rc, stdout := out, stderr := err }
            if rc ≠ 0 then .error { status := "install_failed", install := some ir }
            else .ok (some ir)
        else .ok none
      match installStep with
      | .error r => r
      | .ok installRec =>
        match exec smoke_cmd timeout with
        | .timedOut m => { status := "timeout", error := some m }
        | .raised m => { status := "error", error := some m }
        | .finished rc out err =>
          { status := if rc = 0 then "passed" else "failed",
            install := installRec,
            smoke := some { command := smoke_cmd, returncode := rc,
                            stdout := out, stderr := err } }

/-! ## Workflow status resolver -/

/-- The `WorkflowStatus` enum. -/
inductive WorkflowStatus
  | success
  | failed_tests
  | failed_smoke
  | failed_governance
  | error
deriving DecidableEq, Repr

/-- The string value of each `WorkflowStatus` member. -/
def WorkflowStatus.value : WorkflowStatus → String
  | .success => "success"
  | .failed_tests => "failed_tests"
  | .failed_smoke => "failed_smoke"
  | .failed_governance => "failed_governance"
  | .error => "error"

/-- `OrchestratorAgent._compute_workflow_status`: the Python `is False`
tests translate to equality with `some false`. -/
def compute_workflow_status (tests_passed : Option Bool) (run_tests : Bool)
    (smoke_passed : Option Bool) (run_smoke : Bool)
    (governance_ok : Option Bool) (create_pr : Bool) : WorkflowStatus :=
  if run_tests && tests_passed == some false then .failed_tests
  else if run_smoke && smoke_passed == some false then .failed_smoke
  else if create_pr && governance_ok == some false then .failed_governance
  else .success

/-! ## Workflow coordinators

`run_feature_workflow` / `run_bugfix_workflow` are modelled from the point
where precondition validation (config load, repo resolution, contract
existence — all filesystem interactions) has succeeded, i.e. from the
construction of the `details` payload onwards.  The collaborator calls are
oracle values in a `FeatureEnv`:

* `codegen` — outcome of `CodegenAgent.generate_artifacts` (generated file
  list and feature slug, or the raised exception's text);
* `testExec` / `smokeExec` — the `subprocess.run` oracles for the test and
  smoke runners;
* `getDiff` — outcome of `repo_client.get_diff()` (the governance `try`
  block catches exceptions from it, and from `evaluate`, identically — the
  model's `evaluate` is total, so the oracle carries the exception case);
* `bugfixResult` — the record `_run_bugfix` returns (that helper already
  converts collaborator exceptions into a `success: false` record);
* `prInfo` — the record `_create_pr` returns (branch/commit/PR metadata
  from the version-control collaborator). -/

/-- The record returned by `_run_bugfix` (LLM collaborator result, already
exception-wrapped by that helper). -/
structure BugfixResult where
  success : Bool
  patches : List (String × String × String) := []
  notes : String := ""
deriving DecidableEq, Repr

/-- The record returned by `_create_pr` (external version-control
collaborator metadata, carried through the report unchanged). -/
structure PrInfo where
  payload : String := ""
deriving DecidableEq, Repr

/-- What `details["governance"]` holds after step 7: the serialized
evaluation result, or the caught exception's text under the `"error"` key. -/
inductive GovernanceDetail
  | result (ok : Bool) (violations : List GovernanceRuleViolation) (summary : String)
  | caught (msg : String)
deriving DecidableEq, Repr

/-- The boolean flags of a feature workflow request, with the source's
defaults. -/
structure FeatureFlags where
  dry_run : Bool := true
  run_codegen : Bool := false
  run_tests : Bool := false
  create_pr : Bool := false
  run_smoke : Bool := false
  smoke_timeout : Nat := 60
  run_bugfix : Bool := false
deriving DecidableEq, Repr

/-- Oracle outcomes of the collaborator calls a workflow run can make. -/
structure FeatureEnv where
  codegen : Except String (List String × Option String)
  testExec : ExecOutcome
  getDiff : Except String String
  bugfixResult : BugfixResult
  prInfo : PrInfo
  smokeExec : String → Nat → ExecOutcome

/-- The `details` dict assembled by `run_feature_workflow` (the keys it can
set after validation; `none` = key absent). -/
structure FeatureDetails where
  workflow_steps : List String
  generated_files : Option (List String) := none
  feature_slug : Option (Option String) := none
  test_result : Option TestResult := none
  bugfix_result : Option BugfixResult := none
  governance : Option GovernanceDetail := none
  pr : Option PrInfo := none
  smoke_result : Option SmokeResult := none
  workflow_status : Option String := none
  tests_passed : Option Bool := none
  smoke_passed : Option Bool := none
  governance_ok : Option Bool := none
deriving DecidableEq, Repr

/-- A feature workflow's outer result after validation: the `"accepted"`
returns (dry-run and executed) with their message and details, or the
`"error"` return from a codegen exception. -/
inductive FeatureResult
  | accepted (message : String) (details : FeatureDetails)
  | errored (message error_msg : String)
deriving DecidableEq, Repr

/-- `OrchestratorAgent.run_feature_workflow`, steps 3-10 (after config,
repo and contract validation succeeded). -/
def run_feature_workflow (flags : FeatureFlags) (config : ProjectConfig)
    (env : FeatureEnv) : FeatureResult :=
  let details0 : FeatureDetails :=
    { workflow_steps := ["load_project_config", "validate_contract_exists"] }
  if flags.dry_run then
    .accepted "Feature workflow validated (dry_run)"
      { details0 with
          workflow_steps := details0.workflow_steps ++
            ["prepare_codegen_inputs", "invoke_codegen_agent (skipped, dry_run)",
             "run_tests (skipped, dry_run)", "prepare_pull_request (skipped, dry_run)"] }
  else
    let codegenStep : Except String FeatureDetails :=
      if flags.run_codegen then
        match env.codegen with
        | .error e => .error e
        | .ok (gf, slug) =>
          .ok { details0 with
                  workflow_steps := details0.workflow_steps ++ ["invoke_codegen_agent"],
                  generated_files := some gf, feature_slug := some slug }
      else
        .ok { details0 with
                workflow_steps := details0.workflow_steps ++ ["invoke_codegen_agent (skipped)"] }
    match codegenStep with
    | .error e => .errored "Codegen failed" e
    | .ok d1 =>
      let step6 : FeatureDetails × Option TestResult :=
        if flags.run_tests then
          let test_result := run_tests config env.testExec
          let d := { d1 with workflow_steps := d1.workflow_steps ++ ["run_tests"],
                             test_result := some test_result }
          let d :=
            if flags.run_bugfix && test_result.status == "failed" then
              { d with workflow_steps := d.workflow_steps ++ ["run_bugfix"],
                       bugfix_result := some env.bugfixResult }
            else d
          (d, some test_result)
        else
          ({ d1 with workflow_steps := d1.workflow_steps ++ ["run_tests (skipped)"] }, none)
      let d2 := step6.1
      let test_result? := step6.2
      let step7 : FeatureDetails × Option GovernanceResult :=
        if flags.create_pr then
          match env.getDiff with
          | .error e => ({ d2 with governance := some (.caught e) }, none)
          | .ok diff =>
            let governance_result := evaluate diff config
            ({ d2 with
                 workflow_steps := d2.workflow_steps ++ ["governance_check"],
                 governance := some (.result governance_result.ok
                   governance_result.violations governance_result.summary) },
             some governance_result)
        else (d2, none)
      let d3 := step7.1
      let governance_result? := step7.2
      let d4 :=
        if flags.create_pr then
          { d3 with workflow_steps := d3.workflow_steps ++ ["prepare_pull_request"],
                    pr := some env.prInfo }
        else
          { d3 with workflow_steps := d3.workflow_steps ++ ["prepare_pull_request (skipped)"] }
      let step9 : FeatureDetails × Option SmokeResult :=
        if flags.run_smoke then
          let smoke_result := run_smoke config flags.smoke_timeout env.smokeExec
          ({ d4 with workflow_steps := d4.workflow_steps ++ ["run_smoke"],
                     smoke_result := some smoke_result }, some smoke_result)
        else
          ({ d4 with workflow_steps := d4.workflow_steps ++ ["run_smoke (skipped)"] }, none)
      let d5 := step9.1
      let smoke_result? := step9.2
      let tests_passed : Option Bool :=
        match test_result? with
        | some tr => some (tr.status == "passed")
        | none => none
      let tests_passed := if flags.run_tests && tests_passed.isNone then some false else tests_passed
      let smoke_passed : Option Bool :=
        if flags.run_smoke then
          match smoke_result? with
          | some sr => some (sr.status == "passed")
          | none => none
        else none
      let governance_ok : Option Bool :=
        if flags.create_pr then
          match governance_result? with
          | some gr => some gr.ok
          | none => none
        else none
      let workflow_status := compute_workflow_status tests_passed flags.run_tests
        smoke_passed flags.run_smoke governance_ok flags.create_pr
      .accepted "Feature workflow executed"
        { d5 with workflow_status := some workflow_status.value,
                  tests_passed := tests_passed, smoke_passed := smoke_passed,
                  governance_ok := governance_ok }

/-- The `details` dict assembled by `run_bugfix_workflow`. -/
structure BugfixDetails where
  workflow_steps : List String
  test_result : Option TestResult := none
  bugfix_result : Option BugfixResult := none
  workflow_status : Option String := none
  tests_passed : Option Bool := none
  smoke_passed : Option Bool := none
  governance_ok : Option Bool := none
deriving DecidableEq, Repr

/-- `OrchestratorAgent.run_bugfix_workflow`, steps 3-5 (after config and
repo resolution succeeded; the outer return is always
`("accepted", "Bugfix workflow executed", details)` from that point, so
only the details are modelled).  The diff whose changed files feed the
bugfix request only affects the collaborator payload, which the
`bugfixResult` oracle already carries. -/
def run_bugfix_workflow (run_tests_flag run_bugfix_flag : Bool)
    (config : ProjectConfig) (env : FeatureEnv) : BugfixDetails :=
  let details0 : BugfixDetails := { workflow_steps := ["load_project_config"] }
  let step3 : BugfixDetails × Option TestResult × Option Bool :=
    if run_tests_flag then
      let test_result := run_tests config env.testExec
      ({ details0 with workflow_steps := details0.workflow_steps ++ ["run_tests"],
                       test_result := some test_result },
       some test_result, some (test_result.status == "passed"))
    else
      ({ details0 with workflow_steps := details0.workflow_steps ++ ["run_tests (skipped)"] },
       none, none)
  let d1 := step3.1
  let test_result? := step3.2.1
  let tests_passed := step3.2.2
  let bugfixGate :=
    run_tests_flag &&
      (match test_result? with
       | some tr => tr.status == "failed"
       | none => false) && run_bugfix_flag
  let d2 :=
    if bugfixGate then
      { d1 with workflow_steps := d1.workflow_steps ++ ["run_bugfix"],
                bugfix_result := some env.bugfixResult }
    else d1
  let workflow_status :=
    compute_workflow_status tests_passed run_tests_flag none false none false
  { d2 with workflow_status := some workflow_status.value,
            tests_passed := tests_passed, smoke_passed := none,
            governance_ok := none }

/-! ## Concrete scenario inputs used by the claims -/

/-- A unified diff touching only `secrets/api.key`. -/
def dSecrets : String :=
  "--- a/secrets/api.key\n+++ b/secrets/api.key\n@@ -0,0 +1 @@\n+key"

/-- A unified diff touching only the python source file `src/main.py`. -/
def dPy : String :=
  "--- a/src/main.py\n+++ b/src/main.py\n@@ -1 +1,2 @@\n+x = 1"

/-- A unified diff adding `requests==2.0` to `requirements.txt`. -/
def dReqRequests : String :=
  "--- a/requirements.txt\n+++ b/requirements.txt\n@@ -1 +1,2 @@\n fastapi==0.1\n+requests==2.0"

/-- A unified diff adding `fastapi==1.0` to `requirements.txt`. -/
def dReqFastapi : String :=
  "--- a/requirements.txt\n+++ b/requirements.txt\n@@ -1 +1,2 @@\n fastapi==0.1\n+fastapi==1.0"

/-- A python project configuration whose dependency allow-list is exactly
`["fastapi"]`. -/
def cfgAllowFastapi : ProjectConfig :=
  { language := "python",
    governance := { allowed_dependencies := [("python", ["fastapi"])] } }

/-- A project configuration whose language is not one of the supported
languages and which configures no test command. -/
def cfgGo : ProjectConfig := { language := "go" }

/-- Feature-workflow request asking only for tests. -/
def flagsTestsOnly : FeatureFlags := { dry_run := false, run_tests := true }

/-- Feature-workflow request with every optional step off. -/
def flagsNoSteps : FeatureFlags := { dry_run := false }

/-- Feature-workflow request asking only for a change request. -/
def flagsPrOnly : FeatureFlags := { dry_run := false, create_pr := true }

/-- Feature-workflow request asking for tests and remediation. -/
def flagsTestsBugfix : FeatureFlags :=
  { dry_run := false, run_tests := true, run_bugfix := true }

/-- A benign collaborator environment: codegen succeeds with no files, the
test subprocess exits 0, the diff is empty, smoke exits 0. -/
def envBaseline : FeatureEnv :=
  { codegen := .ok ([], none), testExec := .finished 0 "" "",
    getDiff := .ok "", bugfixResult := { success := true },
    prInfo := {}, smokeExec := fun _ _ => .finished 0 "" "" }

/-- `envBaseline` with a failing test subprocess (exit code 1). -/
def envFailingTests : FeatureEnv := { envBaseline with testExec := .finished 1 "out" "err" }

/-- `envBaseline` with `get_diff` raising. -/
def envDiffError : FeatureEnv := { envBaseline with getDiff := .error "boom" }

/-- The report produced by `flagsNoSteps` under `envBaseline`. -/
def dBaseline : FeatureDetails :=
  { workflow_steps := ["load_project_config", "validate_contract_exists",
      "invoke_codegen_agent (skipped)", "run_tests (skipped)",
      "prepare_pull_request (skipped)", "run_smoke (skipped)"],
    workflow_status := some "success" }

/-- The report produced by `flagsTestsBugfix` under `envFailingTests`. -/
def dBugfixRun : FeatureDetails :=
  { workflow_steps := ["load_project_config", "validate_contract_exists",
      "invoke_codegen_agent (skipped)", "run_tests", "run_bugfix",
      "prepare_pull_request (skipped)", "run_smoke (skipped)"],
    test_result := some (.completed "failed" 1 "out" "err" "pytest"),
    bugfix_result := some { success := true },
    workflow_status := some "failed_tests",
    tests_passed := some false }

/-- The report produced by `flagsPrOnly` under `envDiffError`. -/
def dDiffErrorRun : FeatureDetails :=
  { workflow_steps := ["load_project_config", "validate_contract_exists",
      "invoke_codegen_agent (skipped)", "run_tests (skipped)",
      "prepare_pull_request", "run_smoke (skipped)"],
    governance := some (.caught "boom"),
    pr := some {},
    workflow_status := some "success" }

/-- A runtime target configuring only a smoke command. -/
def tgtSmokeOnly : RuntimeTarget := { smoke_command := some "bash smoke.sh" }

/-- A project configuration whose backend runtime is `tgtSmokeOnly`. -/
def cfgSmoke : ProjectConfig := { runtime := { backend := some tgtSmokeOnly } }

/-- A subprocess oracle in which every command times out. -/
def execAlwaysTimeout : String → Nat → ExecOutcome :=
  fun _ _ => .timedOut "Command timed out"

/-! ## Helper lemmas about the governance evaluator -/

/-- The verdict keeps the violation list unchanged. -/
theorem verdict_violations (vs : List GovernanceRuleViolation) :
    (governanceVerdict vs).violations = vs := rfl

/-- The verdict's `ok` flag is true exactly when no violation has error
severity. -/
theorem verdict_ok_iff (vs : List GovernanceRuleViolation) :
    (governanceVerdict vs).ok = true ↔ ∀ v ∈ vs, v.severity ≠ "error" := by
  simp [governanceVerdict, List.length_eq_zero, List.filter_eq_nil_iff]

/-- `evaluate` unfolded to the three rule blocks. -/
theorem evaluate_violations (diff : String) (cfg : ProjectConfig) :
    (evaluate diff cfg).violations =
      forbiddenRuleViolations (extract_changed_files diff)
        (cfg.governance.forbidden_paths.getD FORBIDDEN_PATHS_DEFAULT) ++
      (if cfg.governance.require_tests_for_code then
         requireTestsViolations (extract_changed_files diff) (pyLower cfg.language)
       else []) ++
      (if !cfg.governance.allowed_dependencies.isEmpty then
         (if !(((cfg.governance.allowed_dependencies.find?
                  (fun p => p.1 = pyLower cfg.language)).map Prod.snd).getD []).isEmpty then
            allowedDepsViolations diff (extract_changed_files diff)
              (((cfg.governance.allowed_dependencies.find?
                  (fun p => p.1 = pyLower cfg.language)).map Prod.snd).getD [])
              (pyLower cfg.language)
          else [])
       else []) := rfl

/-- `evaluate`'s `ok` flag is true exactly when no violation it reports has
error severity. -/
theorem evaluate_ok_iff (diff : String) (cfg : ProjectConfig) :
    (evaluate diff cfg).ok = true ↔
      ∀ v ∈ (evaluate diff cfg).violations, v.severity ≠ "error" :=
  verdict_ok_iff _

/-- Every rule-1 violation carries the `forbidden_paths` rule name. -/
theorem filter_rule1 (changed forb : List String) :
    (forbiddenRuleViolations changed forb).filter
      (fun v => v.rule_name == "forbidden_paths") =
      forbiddenRuleViolations changed forb := by
  unfold forbiddenRuleViolations
  induction changed.filter (fun fp => matches_patterns fp forb) with
  | nil => rfl
  | cons a l ih => simp [mkForbiddenViolation, List.filter_cons, ih]

/-- No rule-2 violation carries the `forbidden_paths` rule name. -/
theorem filter_rule2 (changed : List String) (lang : String) :
    (requireTestsViolations changed lang).filter
      (fun v => v.rule_name == "forbidden_paths") = [] := by
  simp only [requireTestsViolations]
  split
  · rfl
  · rfl

/-- No rule-3 violation carries the `forbidden_paths` rule name. -/
theorem filter_rule3 (diff : String) (changed deps : List String) (lang : String) :
    (allowedDepsViolations diff changed deps lang).filter
      (fun v => v.rule_name == "forbidden_paths") = [] := by
  rw [List.filter_eq_nil_iff]
  intro v hv
  simp only [allowedDepsViolations, List.mem_flatMap] at hv
  obtain ⟨fp, -, hv⟩ := hv
  split at hv
  · simp only [List.mem_filterMap] at hv
    obtain ⟨dep, -, hdep⟩ := hv
    split at hdep
    · obtain rfl := Option.some.inj hdep
      simp
    · exact absurd hdep (by simp)
  · simp at hv

/-! ## Claim theorems -/

/-- C1: the workflow status resolver is a pure function of the three
`(ran, passed)` pairs with first-match-wins precedence — tests ran and did
not pass yields `failed_tests` whatever the other values; otherwise smoke
ran and did not pass yields `failed_smoke`; otherwise a change request was
requested with failing policy yields `failed_governance`; otherwise
`success`.  A step whose ran flag is false never contributes a failure
whatever its passed value, and with all three ran flags false the result is
`success`. -/
theorem compute_workflow_status_first_match :
    (∀ rt rs cp tp sp gp : Bool,
      compute_workflow_status (some tp) rt (some sp) rs (some gp) cp =
        (if rt && !tp then .failed_tests
         else if rs && !sp then .failed_smoke
         else if cp && !gp then .failed_governance
         else .success)) ∧
    (∀ tp sp gp : Option Bool,
      compute_workflow_status tp false sp false gp false = .success) ∧
    (∀ rt rs cp : Bool, ∀ tp sp gp : Option Bool,
      compute_workflow_status tp rt sp rs gp cp =
        (if rt && tp == some false then .failed_tests
         else if rs && sp == some false then .failed_smoke
         else if cp && gp == some false then .failed_governance
         else .success)) := by
  refine ⟨?_, ?_, ?_⟩ <;> decide

/-- C4 (code evidence): the diff parser does not strip the `a/`/`b/`
markers as prefixes — `lstrip` removes leading characters drawn from the
character set — so `a/app/main.py` is mangled to `pp/main.py`, the
null-device sentinel `/dev/null` survives (mangled to `dev/null`) instead
of being excluded, and the two headers of one file can produce two distinct
entries. -/
theorem extract_changed_files_mangles_paths :
    extract_changed_files "--- a/app/main.py\n+++ /dev/null" =
      ["pp/main.py", "dev/null"] ∧
    extract_changed_files "--- a/app/main.py\n+++ b/app/main.py" =
      ["pp/main.py", "app/main.py"] :=
  ⟨by rfl, by rfl⟩

/-- C5: under the default policy configuration, a diff whose only changed
file is `secrets/api.key` yields exactly one violation — severity `error`,
rule `forbidden_paths`, message naming the file — and `ok = False`; in
general the `forbidden_paths` violations of any evaluation are exactly one
error-severity violation per changed file matching a forbidden pattern, in
changed-file order. -/
theorem forbidden_paths_rule :
    (evaluate dSecrets {} =
      { ok := false,
        violations := [{ rule_name := "forbidden_paths", severity := "error",
                         message := "File \x27secrets/api.key\x27 matches forbidden path pattern",
                         file_path := some "secrets/api.key" }],
        summary := "Found 1 violation(s): 1 error(s), 0 warning(s)" }) ∧
    (∀ diff cfg,
      (evaluate diff cfg).violations.filter (fun v => v.rule_name == "forbidden_paths") =
        forbiddenRuleViolations (extract_changed_files diff)
          (cfg.governance.forbidden_paths.getD FORBIDDEN_PATHS_DEFAULT)) := by
  refine ⟨by rfl, ?_⟩
  intro diff cfg
  have h2 : (if cfg.governance.require_tests_for_code then
      requireTestsViolations (extract_changed_files diff) (pyLower cfg.language)
    else []).filter (fun v => v.rule_name == "forbidden_paths") = [] := by
    split
    · exact filter_rule2 _ _
    · rfl
  have h3 : (if !cfg.governance.allowed_dependencies.isEmpty then
      (if !(((cfg.governance.allowed_dependencies.find?
               (fun p => p.1 = pyLower cfg.language)).map Prod.snd).getD []).isEmpty then
         allowedDepsViolations diff (extract_changed_files diff)
           (((cfg.governance.allowed_dependencies.find?
               (fun p => p.1 = pyLower cfg.language)).map Prod.snd).getD [])
           (pyLower cfg.language)
       else [])
    else []).filter (fun v => v.rule_name == "forbidden_paths") = [] := by
    split
    · split
      · exact filter_rule3 _ _ _ _
      · rfl
    · rfl
  rw [evaluate_violations, List.filter_append, List.filter_append,
    filter_rule1, h2, h3, List.append_nil, List.append_nil]

/-- C6: for a python project under default policy, a diff touching only a
`.py` source file and no test file yields exactly one violation — severity
`warning`, rule `require_tests_for_code` — with `ok = True`; in general
`ok` is true iff zero violations carry error severity, so warnings never
flip the verdict. -/
theorem require_tests_advisory :
    (evaluate dPy {} =
      { ok := true,
        violations := [{ rule_name := "require_tests_for_code", severity := "warning",
                         message := "Code changes detected in 1 file(s) but no test files found",
                         file_path := none }],
        summary := "Found 1 violation(s): 0 error(s), 1 warning(s)" }) ∧
    (∀ diff cfg, (evaluate diff cfg).ok = true ↔
      ∀ v ∈ (evaluate diff cfg).violations, v.severity ≠ "error") :=
  ⟨by rfl, evaluate_ok_iff⟩

/-- C7: with the python allow-list `["fastapi"]`, a diff adding
`requests==2.0` to `requirements.txt` yields exactly one violation —
severity `error`, rule `allowed_dependencies`, message naming `requests` —
while adding `fastapi==1.0` instead yields zero violations. -/
theorem allowed_dependencies_rule :
    (evaluate dReqRequests cfgAllowFastapi =
      { ok := false,
        violations := [{ rule_name := "allowed_dependencies", severity := "error",
                         message := "Dependency \x27requests\x27 is not in allowed list",
                         file_path := some "requirements.txt" }],
        summary := "Found 1 violation(s): 1 error(s), 0 warning(s)" }) ∧
    (evaluate dReqFastapi cfgAllowFastapi =
      { ok := true, violations := [],
        summary := "Found 0 violation(s): 0 error(s), 0 warning(s)" }) :=
  ⟨by rfl, by rfl⟩

/-! ## Inversion of the feature workflow

`feature_accepted_inv` characterises every report field of an accepted
non-dry-run feature workflow result; `feature_executes` shows that, once
past validation, only a codegen exception can prevent the accepted
outcome. -/

/-- Field-by-field characterisation of the details of an accepted
non-dry-run feature workflow result. -/
theorem feature_accepted_inv :
    ∀ (flags : FeatureFlags) (config : ProjectConfig) (env : FeatureEnv)
      (msg : String) (d : FeatureDetails),
      flags.dry_run = false →
      run_feature_workflow flags config env = .accepted msg d →
      msg = "Feature workflow executed" ∧
      d.test_result = (if flags.run_tests then some (run_tests config env.testExec) else none) ∧
      d.bugfix_result =
        (if flags.run_tests &&
            (flags.run_bugfix && ((run_tests config env.testExec).status == "failed")) then
           some env.bugfixResult
         else none) ∧
      d.governance =
        (if flags.create_pr then
           some (match env.getDiff with
             | .error e => GovernanceDetail.caught e
             | .ok diff => GovernanceDetail.result (evaluate diff config).ok
                 (evaluate diff config).violations (evaluate diff config).summary)
         else none) ∧
      d.pr = (if flags.create_pr then some env.prInfo else none) ∧
      d.smoke_result =
        (if flags.run_smoke then some (run_smoke config flags.smoke_timeout env.smokeExec)
         else none) ∧
      d.tests_passed =
        (if flags.run_tests then some ((run_tests config env.testExec).status == "passed")
         else none) ∧
      d.smoke_passed =
        (if flags.run_smoke then
           some ((run_smoke config flags.smoke_timeout env.smokeExec).status == "passed")
         else none) ∧
      d.governance_ok =
        (if flags.create_pr then
           (match env.getDiff with
            | .error _ => none
            | .ok diff => some (evaluate diff config).ok)
         else none) ∧
      d.workflow_status =
        some (compute_workflow_status
          (if flags.run_tests then some ((run_tests config env.testExec).status == "passed")
           else none) flags.run_tests
          (if flags.run_smoke then
             some ((run_smoke config flags.smoke_timeout env.smokeExec).status == "passed")
           else none) flags.run_smoke
          (if flags.create_pr then
             (match env.getDiff with
              | .error _ => none
              | .ok diff => some (evaluate diff config).ok)
           else none) flags.create_pr).value ∧
      d.workflow_steps =
        ["load_project_config", "validate_contract_exists"] ++
        (if flags.run_codegen then ["invoke_codegen_agent"]
         else ["invoke_codegen_agent (skipped)"]) ++
        (if flags.run_tests then
           ["run_tests"] ++
           (if flags.run_bugfix && ((run_tests config env.testExec).status == "failed") then
              ["run_bugfix"] else [])
         else ["run_tests (skipped)"]) ++
        (if flags.create_pr then
           (match env.getDiff with
            | .error _ => []
            | .ok _ => ["governance_check"]) ++ ["prepare_pull_request"]
         else ["prepare_pull_request (skipped)"]) ++
        (if flags.run_smoke then ["run_smoke"] else ["run_smoke (skipped)"]) := by
  intro flags config env msg d hdry hacc
  obtain ⟨dry, rc, rt, cp, rs, st, rb⟩ := flags
  simp only at hdry hacc ⊢
  subst hdry
  rcases hcg : env.codegen with e | ⟨gf, slug⟩ <;>
  rcases hgd : env.getDiff with e2 | diffStr <;>
  cases rc <;> cases rt <;> cases cp <;> cases rs <;> cases rb <;>
  by_cases hf : (run_tests config env.testExec).status = "failed" <;>
  (simp [run_feature_workflow, hcg, hgd, hf, FeatureResult.accepted.injEq] at hacc) <;>
  (obtain ⟨hmsg, hd⟩ := hacc
   subst hd
   subst hmsg
   simp [hf, hgd, hcg])

/-- Past validation, the feature workflow reaches the accepted outcome
unless codegen was requested and raised. -/
theorem feature_executes :
    ∀ (flags : FeatureFlags) (config : ProjectConfig) (env : FeatureEnv),
      flags.dry_run = false →
      (flags.run_codegen = false ∨ ∃ x, env.codegen = .ok x) →
      ∃ d, run_feature_workflow flags config env =
        .accepted "Feature workflow executed" d := by
  intro flags config env hdry hcg
  obtain ⟨dry, rc, rt, cp, rs, st, rb⟩ := flags
  simp only at hdry hcg ⊢
  subst hdry
  cases rc with
  | false => exact ⟨_, rfl⟩
  | true =>
    rcases hcg with h | ⟨x, hx⟩
    · exact absurd h (by simp)
    · obtain ⟨gf, slug⟩ := x
      exact ⟨_, by unfold run_feature_workflow; rw [hx]; exact rfl⟩

/-- C2: in both the feature and the bugfix workflow, the remediation step
is invoked (its result recorded) iff the tests step ran, the recorded test
status is exactly `"failed"`, and remediation was requested — in
particular never on `"error"` or `"skipped"` status. -/
theorem bugfix_gating_iff :
    (∀ (flags : FeatureFlags) (config : ProjectConfig) (env : FeatureEnv)
        (msg : String) (d : FeatureDetails),
      flags.dry_run = false →
      run_feature_workflow flags config env = .accepted msg d →
      (d.bugfix_result.isSome = true ↔
        (flags.run_tests = true ∧ flags.run_bugfix = true ∧
          ∃ tr, d.test_result = some tr ∧ tr.status = "failed"))) ∧
    (∀ (rt rb : Bool) (config : ProjectConfig) (env : FeatureEnv),
      ((run_bugfix_workflow rt rb config env).bugfix_result.isSome = true ↔
        (rt = true ∧ rb = true ∧
          ∃ tr, (run_bugfix_workflow rt rb config env).test_result = some tr ∧
            tr.status = "failed"))) := by
  constructor
  · intro flags config env msg d hdry hacc
    obtain ⟨-, htr, hbf, -⟩ := feature_accepted_inv flags config env msg d hdry hacc
    rw [htr, hbf]
    cases hrt : flags.run_tests <;> cases hrb : flags.run_bugfix <;>
      by_cases hf : (run_tests config env.testExec).status = "failed" <;> simp [hf]
  · intro rt rb config env
    cases rt <;> cases rb <;>
      by_cases hf : (run_tests config env.testExec).status = "failed" <;>
      simp [run_bugfix_workflow, hf]

/-- Witness for C2: with tests and remediation requested and a failing test
subprocess, the remediation result is recorded. -/
theorem bugfix_gating_iff_witness :
    (run_feature_workflow flagsTestsBugfix {} envFailingTests =
      .accepted "Feature workflow executed" dBugfixRun) ∧
    dBugfixRun.bugfix_result.isSome = true := by
  have hacc : run_feature_workflow flagsTestsBugfix {} envFailingTests =
      .accepted "Feature workflow executed" dBugfixRun := by rfl
  refine ⟨hacc, ?_⟩
  exact (bugfix_gating_iff.1 flagsTestsBugfix {} envFailingTests _ dBugfixRun rfl hacc).mpr
    ⟨rfl, rfl, .completed "failed" 1 "out" "err" "pytest", by rfl, rfl⟩

/-- C3: policy evaluation is attempted only when a change request is
requested, and an exception while retrieving the diff (or evaluating
policy) is caught and recorded under the report's governance key without
aborting: the workflow still records the change-request step and result,
still computes a workflow status (with `governance_ok` left unset), and
still returns the accepted outcome. -/
theorem governance_exception_nonfatal :
    (∀ (flags : FeatureFlags) (config : ProjectConfig) (env : FeatureEnv)
        (msg : String) (d : FeatureDetails),
      flags.dry_run = false →
      run_feature_workflow flags config env = .accepted msg d →
      flags.create_pr = false →
      d.governance = none ∧ d.governance_ok = none) ∧
    (∀ (flags : FeatureFlags) (config : ProjectConfig) (env : FeatureEnv) (e : String),
      flags.dry_run = false → flags.create_pr = true →
      env.getDiff = .error e →
      (flags.run_codegen = false ∨ ∃ x, env.codegen = .ok x) →
      ∃ d, run_feature_workflow flags config env =
          .accepted "Feature workflow executed" d ∧
        d.governance = some (.caught e) ∧
        d.pr = some env.prInfo ∧
        "prepare_pull_request" ∈ d.workflow_steps ∧
        d.governance_ok = none ∧
        d.workflow_status =
          some (compute_workflow_status
            (if flags.run_tests then
               some ((run_tests config env.testExec).status == "passed")
             else none)
            flags.run_tests
            (if flags.run_smoke then
               some ((run_smoke config flags.smoke_timeout env.smokeExec).status == "passed")
             else none)
            flags.run_smoke none flags.create_pr).value) := by
  constructor
  · intro flags config env msg d hdry hacc hcp
    obtain ⟨-, -, -, hgov, -, -, -, -, hgo, -⟩ :=
      feature_accepted_inv flags config env msg d hdry hacc
    rw [hgov, hgo, hcp]
    simp
  · intro flags config env e hdry hcp hgd hcg
    obtain ⟨d, hacc⟩ := feature_executes flags config env hdry hcg
    obtain ⟨-, -, -, hgov, hpr, -, -, -, hgo, hws, hsteps⟩ :=
      feature_accepted_inv flags config env _ d hdry hacc
    refine ⟨d, hacc, ?_, ?_, ?_, ?_, ?_⟩
    · rw [hgov, hcp]; simp [hgd]
    · rw [hpr, hcp]; simp
    · rw [hsteps, hcp]; simp [hgd]
    · rw [hgo, hcp]; simp [hgd]
    · rw [hws, hcp]; simp [hgd]

/-- Witness for C3: with only a change request flagged and `get_diff`
raising `"boom"`, the workflow still returns accepted, records the caught
error and the change-request result. -/
theorem governance_exception_nonfatal_witness :
    (run_feature_workflow flagsPrOnly {} envDiffError =
      .accepted "Feature workflow executed" dDiffErrorRun) ∧
    dDiffErrorRun.governance = some (.caught "boom") ∧
    dDiffErrorRun.pr = some envDiffError.prInfo ∧
    dDiffErrorRun.governance_ok = none := by
  obtain ⟨d, hacc, hgov, hpr, hmem, hgo, hws⟩ :=
    governance_exception_nonfatal.2 flagsPrOnly {} envDiffError "boom" rfl rfl rfl (Or.inl rfl)
  have heq : run_feature_workflow flagsPrOnly {} envDiffError =
      .accepted "Feature workflow executed" dDiffErrorRun := by rfl
  rw [heq] at hacc
  injection hacc with h1 h2
  subst h2
  exact ⟨heq, hgov, hpr, hgo⟩

/-- C8: when the smoke sub-step's subprocess exceeds its timeout the smoke
runner returns a result whose status is `"timeout"` without propagating an
exception (result statuses are drawn from the closed classification set),
and each subprocess call receives the full caller-supplied timeout as its
own budget — the runner's behaviour depends on the execution oracle only
through calls made with that full timeout. -/
theorem smoke_timeout_isolated :
    (∀ (cfg : ProjectConfig) (timeout : Nat) (exec : String → Nat → ExecOutcome)
        (tgt : RuntimeTarget) (m : String),
      smokeTargetOf cfg.runtime = some tgt →
      tgt.smoke_command.getD "" ≠ "" →
      (tgt.install_command.getD "" = "" ∨
        ∃ out err, exec (tgt.install_command.getD "") timeout = .finished 0 out err) →
      exec (tgt.smoke_command.getD "") timeout = .timedOut m →
      run_smoke cfg timeout exec = { status := "timeout", error := some m }) ∧
    (∀ (cfg : ProjectConfig) (timeout : Nat) (exec : String → Nat → ExecOutcome),
      (run_smoke cfg timeout exec).status ∈
        (["skipped", "install_failed", "timeout", "error", "passed", "failed"] : List String)) ∧
    (∀ (cfg : ProjectConfig) (timeout : Nat) (exec exec2 : String → Nat → ExecOutcome),
      (∀ cmd, exec cmd timeout = exec2 cmd timeout) →
      run_smoke cfg timeout exec = run_smoke cfg timeout exec2) := by
  refine ⟨?_, ?_, ?_⟩
  · intro cfg timeout exec tgt m htgt hsc hinst htime
    rcases hinst with hic | ⟨out, err, hfin⟩
    · simp [run_smoke, htgt, hsc, hic, htime]
    · by_cases hic : tgt.install_command.getD "" = ""
      · simp [run_smoke, htgt, hsc, hic, htime]
      · simp [run_smoke, htgt, hsc, hic, hfin, htime]
  · intro cfg timeout exec
    rcases htg : smokeTargetOf cfg.runtime with _ | tgt
    · simp [run_smoke, htg]
    · by_cases hsc : tgt.smoke_command.getD "" = ""
      · simp [run_smoke, htg, hsc]
      · by_cases hic : tgt.install_command.getD "" = ""
        · cases hs : exec (tgt.smoke_command.getD "") timeout with
          | timedOut m => simp [run_smoke, htg, hsc, hic, hs]
          | raised m => simp [run_smoke, htg, hsc, hic, hs]
          | finished rc out err =>
            by_cases h0 : rc = 0 <;> simp [run_smoke, htg, hsc, hic, hs, h0]
        · cases hi : exec (tgt.install_command.getD "") timeout with
          | timedOut m => simp [run_smoke, htg, hsc, hic, hi]
          | raised m => simp [run_smoke, htg, hsc, hic, hi]
          | finished rc out err =>
            by_cases h0 : rc = 0
            · cases hs : exec (tgt.smoke_command.getD "") timeout with
              | timedOut m2 => simp [run_smoke, htg, hsc, hic, hi, h0, hs]
              | raised m2 => simp [run_smoke, htg, hsc, hic, hi, h0, hs]
              | finished rc2 out2 err2 =>
                by_cases h02 : rc2 = 0 <;> simp [run_smoke, htg, hsc, hic, hi, h0, hs, h02]
            · simp [run_smoke, htg, hsc, hic, hi, h0]
  · intro cfg timeout exec exec2 h
    simp only [run_smoke, h]

/-- Witness for C8: a backend target whose smoke command always times out
yields the `"timeout"` result. -/
theorem smoke_timeout_isolated_witness :
    run_smoke cfgSmoke 60 execAlwaysTimeout =
      { status := "timeout", error := some "Command timed out" } :=
  smoke_timeout_isolated.1 cfgSmoke 60 execAlwaysTimeout tgtSmokeOnly "Command timed out"
    rfl (by decide) (Or.inl rfl) rfl

/-- C9 (counterexample): a non-dry-run feature workflow run with every
optional flag off produces a step log with codegen, tests, change-request
and smoke tokens (all `(skipped)`-qualified) but no token of any wording
for the policy/governance check — refuting the claim that every optional
step, including the governance check, contributes a token whether it ran
or was skipped. -/
theorem governance_step_unlogged :
    (run_feature_workflow flagsNoSteps {} envBaseline =
      .accepted "Feature workflow executed" dBaseline) ∧
    dBaseline.workflow_steps.all
      (fun s => !(strContains s "governance") && !(strContains s "policy")) = true :=
  ⟨by rfl, by rfl⟩

/-- C9 (amended): in every accepted non-dry-run feature workflow run, the
codegen, tests, change-request and smoke steps each contribute a step token
whether they ran or were skipped (skipped steps use the `(skipped)`
variant); the governance check contributes its token exactly when a change
request was requested and the diff was retrieved without exception — when
no change request was requested, and likewise when one was requested but
the governance try-block raised, no governance token of any wording
appears in the step log. -/
theorem step_log_tokens :
    ∀ (flags : FeatureFlags) (config : ProjectConfig) (env : FeatureEnv)
      (msg : String) (d : FeatureDetails),
      flags.dry_run = false →
      run_feature_workflow flags config env = .accepted msg d →
      (d.workflow_steps.contains "invoke_codegen_agent" ||
        d.workflow_steps.contains "invoke_codegen_agent (skipped)") = true ∧
      (d.workflow_steps.contains "run_tests" ||
        d.workflow_steps.contains "run_tests (skipped)") = true ∧
      (d.workflow_steps.contains "prepare_pull_request" ||
        d.workflow_steps.contains "prepare_pull_request (skipped)") = true ∧
      (d.workflow_steps.contains "run_smoke" ||
        d.workflow_steps.contains "run_smoke (skipped)") = true ∧
      (flags.create_pr = true → (∃ ds, env.getDiff = .ok ds) →
        d.workflow_steps.contains "governance_check" = true) ∧
      (flags.create_pr = true → ∀ e, env.getDiff = .error e →
        d.workflow_steps.all (fun s => !(strContains s "governance")) = true) ∧
      (flags.create_pr = false →
        d.workflow_steps.all (fun s => !(strContains s "governance")) = true) := by
  intro flags config env msg d hdry hacc
  obtain ⟨-, -, -, -, -, -, -, -, -, -, hsteps⟩ :=
    feature_accepted_inv flags config env msg d hdry hacc
  rw [hsteps]
  obtain ⟨dry, rc, rt, cp, rs, st, rb⟩ := flags
  simp only
  rcases hgd : env.getDiff with e | diffStr <;>
  cases rc <;> cases rt <;> cases cp <;> cases rs <;>
  by_cases hb : (rb && ((run_tests config env.testExec).status == "failed")) = true <;>
  simp [hgd, hb] <;> decide

/-- Witness for C9 (amended): the all-flags-off run carries the
`run_tests (skipped)` token. -/
theorem step_log_tokens_witness :
    (dBaseline.workflow_steps.contains "run_tests" ||
      dBaseline.workflow_steps.contains "run_tests (skipped)") = true := by
  have hacc : run_feature_workflow flagsNoSteps {} envBaseline =
      .accepted "Feature workflow executed" dBaseline := by rfl
  exact (step_log_tokens flagsNoSteps {} envBaseline _ dBaseline rfl hacc).2.1

/-- C10: when tests are requested but no test command can be derived (no
`test_command` configured and the language is unsupported), the test step
is recorded as `"skipped"`, yet the report records `tests_passed = False`
and the workflow status resolves to `failed_tests`. -/
theorem skipped_tests_count_as_failed :
    (∀ (cfg : ProjectConfig) (exec : ExecOutcome),
      cfg.test_command = none →
      pyLower cfg.language ∉ (["python", "js", "javascript", "node", "php"] : List String) →
      run_tests cfg exec = .skipped "No test_command configured") ∧
    (∀ env : FeatureEnv,
      run_feature_workflow flagsTestsOnly cfgGo env =
        .accepted "Feature workflow executed"
          { workflow_steps := ["load_project_config", "validate_contract_exists",
              "invoke_codegen_agent (skipped)", "run_tests",
              "prepare_pull_request (skipped)", "run_smoke (skipped)"],
            test_result := some (.skipped "No test_command configured"),
            workflow_status := some "failed_tests",
            tests_passed := some false }) := by
  constructor
  · intro cfg exec h1 h2
    simp only [List.mem_cons, List.mem_singleton, not_or] at h2
    obtain ⟨hp, hjs, hjav, hnode, hphp⟩ := h2
    simp [run_tests, h1, hp, hjs, hjav, hnode, hphp]
  · intro env
    rfl

/-- Witness for C10: the unsupported-language configuration yields the
skipped test result whatever the subprocess oracle. -/
theorem skipped_tests_count_as_failed_witness :
    run_tests cfgGo (.finished 0 "" "") = .skipped "No test_command configured" :=
  skipped_tests_count_as_failed.1 cfgGo (.finished 0 "" "") rfl (by decide)
